import Mathlib

/-!
Verification of the NCM (网易云音乐) URL parser, `src/core/parsers/ncm.py`.

The parser's song handler `_parse_song` issues two sequential HTTP GET
requests (song detail, playback URL), extracts fields from the JSON
responses with defensive defaulting, and assembles a normalized result.
We embed it as a pure function over an oracle `Network` holding the two
responses, returning the outcome together with the list of requests that
were actually issued (so that "no playback request is issued" is provable).

Python `dict.get(k, d)` is modelled by `Option.getD`; Python truthiness
tests on strings and lists are modelled by comparison with `""` / `[]`.
Python `//` (floor division) on ints is `Int.fdiv`.
-/

namespace Ncm

/-- JSON `album` object: `{name, picUrl}`, both optional. -/
structure Album where
  name : Option String
  picUrl : Option String
deriving DecidableEq, Repr

/-- JSON `artists[i]` object: `{name, img1v1Url}`, both optional. -/
structure Artist where
  name : Option String
  img1v1Url : Option String
deriving DecidableEq, Repr

/-- JSON `songs[i]` object of the detail response. -/
structure Song where
  name : Option String
  «alias» : Option (List String)
  album : Option Album
  duration : Option Int
  artists : Option (List Artist)
deriving DecidableEq, Repr

/-- JSON body of the song-detail response: `{songs: [...]}`. -/
structure DetailJson where
  songs : Option (List Song)
deriving DecidableEq, Repr

/-- JSON `data[i]` object of the playback response: `{url, code}`. -/
structure PlayEntry where
  url : Option String
  code : Option Int
deriving DecidableEq, Repr

/-- JSON body of the playback response: `{data: [...]}`. -/
structure PlayJson where
  data : Option (List PlayEntry)
deriving DecidableEq, Repr

/-- An HTTP response to the song-detail request: status plus parsed JSON. -/
structure DetailResp where
  status : Nat
  body : DetailJson
deriving DecidableEq, Repr

/-- An HTTP response to the playback-URL request: status plus parsed JSON. -/
structure PlayResp where
  status : Nat
  body : PlayJson
deriving DecidableEq, Repr

/-- Oracle for the two outbound requests the song handler can issue. -/
structure Network where
  detail : DetailResp
  play : PlayResp
deriving DecidableEq, Repr

/-- The two kinds of outbound request `_parse_song` can issue. -/
inductive Req where
  | detailReq : Req
  | playReq : Req
deriving DecidableEq, Repr

/-- Error conditions: `ClientError` (network) vs `ParseException` (domain),
each carrying the raised message string. -/
inductive NcmError where
  | clientError : String → NcmError
  | parseError : String → NcmError
deriving DecidableEq, Repr

/-- Author object built by `create_author(name, avatar)`. -/
structure Author where
  name : String
  avatar : String
deriving DecidableEq, Repr

/-- A content item: an image (from `create_image_contents`) or an audio
item (from `create_audio_content`, with optional duration in seconds). -/
inductive Content where
  | image : String → Content
  | audio : String → Option Int → Content
deriving DecidableEq, Repr

/-- The normalized parsed result assembled via `self.result(...)`. -/
structure ParsedResult where
  title : String
  text : Option String
  author : Option Author
  contents : List Content
  timestamp : Option Int
  url : String
deriving DecidableEq, Repr

/-- Message of the detail-request HTTP failure:
`f"[NCM] 获取歌曲信息失败 HTTP {resp.status}"`. -/
def detailHttpErrMsg (status : Nat) : String :=
  "[NCM] 获取歌曲信息失败 HTTP " ++ toString status

/-- Message of the playback-request HTTP failure:
`f"[NCM] 获取播放地址失败 HTTP {resp.status}"`. -/
def playHttpErrMsg (status : Nat) : String :=
  "[NCM] 获取播放地址失败 HTTP " ++ toString status

/-- Message raised when the detail response has no songs. -/
def songNotFoundMsg : String := "[NCM] 未找到该歌曲"

/-- Message raised when the playback response has no data entries. -/
def playDataFailMsg : String := "[NCM] 获取播放数据失败"

/-- Message raised when playback is denied with code 404 (VIP/rights). -/
def vipRestrictedMsg : String := "[NCM] 该歌曲需要VIP或存在版权限制，无法获取播放地址"

/-- Message raised when playback is denied with any other code:
`f"[NCM] 无法获取播放地址 (code={code})"`. -/
def noPlayUrlMsg (code : Int) : String :=
  "[NCM] 无法获取播放地址 (code=" ++ toString code ++ ")"

/-- Embeds `sub_title = song.get("alias", [""])[0] if song.get("alias") else ""`. -/
def subTitleOf (s : Song) : String :=
  match s.«alias» with
  | some (a :: _) => a
  | _ => ""

/-- Embeds `album_name = song.get("album", {}).get("name", "")`. -/
def albumNameOf (s : Song) : String :=
  (s.album.bind Album.name).getD ""

/-- Embeds `cover_url = song.get("album", {}).get("picUrl", "")`, then
`if cover_url: cover_url = cover_url + "?param=640y640"`. -/
def coverUrlOf (s : Song) : String :=
  let c := (s.album.bind Album.picUrl).getD ""
  if c ≠ "" then c ++ "?param=640y640" else c

/-- Embeds `author_name = " / ".join(ar.get("name", "") for ar in ar_list)`. -/
def authorNameOf (s : Song) : String :=
  String.intercalate " / " ((s.artists.getD []).map fun a => a.name.getD "")

/-- Embeds `author_avatar = ar_list[0].get("img1v1Url", "") if ar_list else ""`. -/
def authorAvatarOf (s : Song) : String :=
  match s.artists.getD [] with
  | a :: _ => a.img1v1Url.getD ""
  | [] => ""

/-- Title assembly of step 4:
`f"{title}{'（' + sub_title + '）' if sub_title else ''}"`. -/
def formatTitle (title subTitle : String) : String :=
  title ++ (if subTitle ≠ "" then "（" ++ subTitle ++ "）" else "")

/-- The audio content item built for a successful parse:
`create_audio_content(audio_url, duration=duration_ms // 1000)`. -/
def songAudio (song : Song) (entry : PlayEntry) : Content :=
  Content.audio (entry.url.getD "") (some ((song.duration.getD 0).fdiv 1000))

/-- Embedding of `NCMParser._parse_song`: given the song id and the network
oracle, returns the outcome (result or raised error) together with the list
of requests issued, in order. -/
def parseSong (songId : String) (net : Network) :
    Except NcmError ParsedResult × List Req :=
  if 400 ≤ net.detail.status then
    (Except.error (NcmError.clientError (detailHttpErrMsg net.detail.status)),
      [Req.detailReq])
  else
    match net.detail.body.songs.getD [] with
    | [] => (Except.error (NcmError.parseError songNotFoundMsg), [Req.detailReq])
    | song :: _ =>
      if 400 ≤ net.play.status then
        (Except.error (NcmError.clientError (playHttpErrMsg net.play.status)),
          [Req.detailReq, Req.playReq])
      else
        match net.play.body.data.getD [] with
        | [] =>
          (Except.error (NcmError.parseError playDataFailMsg),
            [Req.detailReq, Req.playReq])
        | playInfo :: _ =>
          if playInfo.url.getD "" = "" then
            if playInfo.code.getD (-1) = 404 then
              (Except.error (NcmError.parseError vipRestrictedMsg),
                [Req.detailReq, Req.playReq])
            else
              (Except.error (NcmError.parseError (noPlayUrlMsg (playInfo.code.getD (-1)))),
                [Req.detailReq, Req.playReq])
          else
            (Except.ok
              { title := formatTitle (song.name.getD "") (subTitleOf song)
                text :=
                  if albumNameOf song ≠ "" then
                    some ("专辑：" ++ albumNameOf song)
                  else none
                author :=
                  if authorNameOf song ≠ "" then
                    some ⟨authorNameOf song, authorAvatarOf song⟩
                  else none
                contents :=
                  (if coverUrlOf song ≠ "" then [Content.image (coverUrlOf song)]
                    else []) ++ [songAudio song playInfo]
                timestamp := none
                url := "https://music.163.com/#/song?id=" ++ songId },
              [Req.detailReq, Req.playReq])

/-- Embedding of `NCMParser._parse_direct_mp3`: wraps the matched URL as the
sole audio content item, with a fixed title and text; issues no request. -/
def parseDirectMp3 (url : String) :
    Except NcmError ParsedResult × List Req :=
  (Except.ok
    { title := "网易云音乐"
      text := some "直链音频"
      author := none
      contents := [Content.audio url none]
      timestamp := none
      url := url },
    [])

/-- Embedding of `NCMParser._parse_private_outer`: wraps the matched URL as
the sole audio content item, with a distinct fixed title; issues no request. -/
def parsePrivateOuter (url : String) :
    Except NcmError ParsedResult × List Req :=
  (Except.ok
    { title := "网易云音乐（私人直链）"
      text := some "直链音频"
      author := none
      contents := [Content.audio url none]
      timestamp := none
      url := url },
    [])

/-! Evaluation lemmas: one per control-flow branch of `parseSong`. -/

/-- A detail request with HTTP status ≥ 400 raises the network error at once. -/
theorem parseSong_detail_http (songId : String) (net : Network)
    (h : 400 ≤ net.detail.status) :
    parseSong songId net =
      (Except.error (NcmError.clientError (detailHttpErrMsg net.detail.status)),
        [Req.detailReq]) := by
  unfold parseSong
  rw [if_pos h]

/-- An empty (or missing) songs list raises the not-found error,
with only the detail request issued. -/
theorem parseSong_songs_empty (songId : String) (net : Network)
    (h1 : net.detail.status < 400)
    (h2 : net.detail.body.songs.getD [] = []) :
    parseSong songId net =
      (Except.error (NcmError.parseError songNotFoundMsg), [Req.detailReq]) := by
  have hd : ¬ 400 ≤ net.detail.status := by omega
  simp only [parseSong, if_neg hd, h2]

/-- A playback request with HTTP status ≥ 400 raises the network error. -/
theorem parseSong_play_http (songId : String) (net : Network)
    (song : Song) (rest : List Song)
    (h1 : net.detail.status < 400)
    (h2 : net.detail.body.songs.getD [] = song :: rest)
    (h3 : 400 ≤ net.play.status) :
    parseSong songId net =
      (Except.error (NcmError.clientError (playHttpErrMsg net.play.status)),
        [Req.detailReq, Req.playReq]) := by
  have hd : ¬ 400 ≤ net.detail.status := by omega
  simp only [parseSong, if_neg hd, h2, if_pos h3]

/-- An empty (or missing) playback data list raises the unavailable-data error. -/
theorem parseSong_play_empty (songId : String) (net : Network)
    (song : Song) (rest : List Song)
    (h1 : net.detail.status < 400)
    (h2 : net.detail.body.songs.getD [] = song :: rest)
    (h3 : net.play.status < 400)
    (h4 : net.play.body.data.getD [] = []) :
    parseSong songId net =
      (Except.error (NcmError.parseError playDataFailMsg),
        [Req.detailReq, Req.playReq]) := by
  have hd : ¬ 400 ≤ net.detail.status := by omega
  have hp : ¬ 400 ≤ net.play.status := by omega
  simp only [parseSong, if_neg hd, h2, if_neg hp, h4]

/-- A first playback entry with no (or empty) URL raises the restricted error
when its code is 404 and the generic unavailable error otherwise. -/
theorem parseSong_no_url (songId : String) (net : Network)
    (song : Song) (rest : List Song) (e : PlayEntry) (es : List PlayEntry)
    (h1 : net.detail.status < 400)
    (h2 : net.detail.body.songs.getD [] = song :: rest)
    (h3 : net.play.status < 400)
    (h4 : net.play.body.data.getD [] = e :: es)
    (h5 : e.url.getD "" = "") :
    parseSong songId net =
      (Except.error (NcmError.parseError
        (if e.code.getD (-1) = 404 then vipRestrictedMsg
          else noPlayUrlMsg (e.code.getD (-1)))),
        [Req.detailReq, Req.playReq]) := by
  have hd : ¬ 400 ≤ net.detail.status := by omega
  have hp : ¬ 400 ≤ net.play.status := by omega
  simp only [parseSong, if_neg hd, h2, if_neg hp, h4, if_pos h5]
  by_cases hc : e.code.getD (-1) = 404
  · simp only [if_pos hc]
  · simp only [if_neg hc]

/-- On the success path, the assembled result in full. -/
theorem parseSong_success (songId : String) (net : Network)
    (song : Song) (rest : List Song) (e : PlayEntry) (es : List PlayEntry)
    (h1 : net.detail.status < 400)
    (h2 : net.detail.body.songs.getD [] = song :: rest)
    (h3 : net.play.status < 400)
    (h4 : net.play.body.data.getD [] = e :: es)
    (h5 : e.url.getD "" ≠ "") :
    parseSong songId net =
      (Except.ok
        { title := formatTitle (song.name.getD "") (subTitleOf song)
          text :=
            if albumNameOf song ≠ "" then some ("专辑：" ++ albumNameOf song)
            else none
          author :=
            if authorNameOf song ≠ "" then
              some ⟨authorNameOf song, authorAvatarOf song⟩
            else none
          contents :=
            (if coverUrlOf song ≠ "" then [Content.image (coverUrlOf song)]
              else []) ++ [songAudio song e]
          timestamp := none
          url := "https://music.163.com/#/song?id=" ++ songId },
        [Req.detailReq, Req.playReq]) := by
  have hd : ¬ 400 ≤ net.detail.status := by omega
  have hp : ¬ 400 ≤ net.play.status := by omega
  simp only [parseSong, if_neg hd, h2, if_neg hp, h4, if_neg h5]

/-- The restricted (VIP/rights) message differs from the generic
unavailable message, whatever code the latter carries: the two strings
already differ in their first seven characters. -/
theorem vipRestrictedMsg_ne_noPlayUrlMsg (c : Int) :
    vipRestrictedMsg ≠ noPlayUrlMsg c := by
  intro h
  have hd : vipRestrictedMsg.data.take 21 = (noPlayUrlMsg c).data.take 21 := by
    rw [h]
  rw [noPlayUrlMsg, String.data_append, String.data_append,
    List.append_assoc] at hd
  rw [List.take_left' (by decide :
    ("[NCM] 无法获取播放地址 (code=".data).length = 21)] at hd
  exact absurd hd (by decide)

/-- A string with a non-empty suffix appended is non-empty. -/
theorem append_ne_empty_of_right (p s : String) (hs : s ≠ "") :
    p ++ s ≠ "" := by
  intro h
  have hl := congrArg String.length h
  rw [String.length_append, String.length_empty] at hl
  exact hs (by
    have : s.length = 0 := by omega
    cases s with
    | mk l =>
      cases l with
      | nil => rfl
      | cons a t => simp [String.length] at this)

/-- A successful result is produced exactly when the detail request
succeeds with a non-empty songs list and the playback request succeeds
with a first entry carrying a non-empty URL. -/
theorem parseSong_ok_iff (songId : String) (net : Network) :
    (∃ r, (parseSong songId net).1 = Except.ok r) ↔
      (net.detail.status < 400 ∧
        net.detail.body.songs.getD [] ≠ [] ∧
        net.play.status < 400 ∧
        ∃ e es, net.play.body.data.getD [] = e :: es ∧ e.url.getD "" ≠ "") := by
  constructor
  · rintro ⟨r, hr⟩
    by_cases h1 : net.detail.status < 400
    swap
    · rw [parseSong_detail_http songId net (by omega)] at hr
      exact absurd hr (by simp)
    cases h2 : net.detail.body.songs.getD [] with
    | nil =>
      rw [parseSong_songs_empty songId net h1 h2] at hr
      exact absurd hr (by simp)
    | cons song rest =>
      by_cases h3 : net.play.status < 400
      swap
      · rw [parseSong_play_http songId net song rest h1 h2 (by omega)] at hr
        exact absurd hr (by simp)
      cases h4 : net.play.body.data.getD [] with
      | nil =>
        rw [parseSong_play_empty songId net song rest h1 h2 h3 h4] at hr
        exact absurd hr (by simp)
      | cons e es =>
        by_cases h5 : e.url.getD "" = ""
        · rw [parseSong_no_url songId net song rest e es h1 h2 h3 h4 h5] at hr
          exact absurd hr (by simp)
        · exact ⟨h1, by simp, h3, ⟨e, es, rfl, h5⟩⟩
  · rintro ⟨h1, h2, h3, e, es, h4, h5⟩
    cases hs : net.detail.body.songs.getD [] with
    | nil => exact absurd hs h2
    | cons song rest =>
      rw [parseSong_success songId net song rest e es h1 hs h3 h4 h5]
      exact ⟨_, rfl⟩

/-! Concrete sample inputs used by the witnesses below. -/

/-- Shorthand for building a network oracle from the four response parts. -/
def netOf (st1 : Nat) (songs : Option (List Song)) (st2 : Nat)
    (entries : Option (List PlayEntry)) : Network :=
  { detail := { status := st1, body := { songs := songs } }
    play := { status := st2, body := { data := entries } } }

/-- A fully-populated sample song. -/
def sampleSong : Song :=
  { name := some "Song"
    «alias» := some ["Alt"]
    album := some { name := some "Alb", picUrl := some "http://example/cover.jpg" }
    duration := some 125499
    artists := some
      [{ name := some "A", img1v1Url := some "http://a/av.jpg" },
       { name := some "B", img1v1Url := some "http://b/av.jpg" }] }

/-- A sample song with every optional metadata field missing. -/
def bareSong : Song :=
  { name := some "Song", «alias» := none, album := none,
    duration := none, artists := none }

/-- A playback entry with a playable URL. -/
def okEntry : PlayEntry := { url := some "http://audio/song.mp3", code := none }

/-- Successful exchange for the fully-populated song. -/
def netSample : Network := netOf 200 (some [sampleSong]) 200 (some [okEntry])

/-- Successful exchange for the bare song. -/
def netBare : Network := netOf 200 (some [bareSong]) 200 (some [okEntry])

/-- Detail response whose songs list is empty. -/
def netEmptySongs : Network := netOf 200 (some []) 200 (some [okEntry])

/-- Detail request failing with HTTP 500. -/
def netDetailFail : Network := netOf 500 (some [sampleSong]) 200 (some [okEntry])

/-- Playback request failing with HTTP 502. -/
def netPlayFail : Network := netOf 200 (some [sampleSong]) 502 (some [okEntry])

/-- Playback denied: no URL, provider code 404. -/
def netVip : Network :=
  netOf 200 (some [sampleSong]) 200 (some [{ url := none, code := some 404 }])

/-- Playback denied: empty URL, provider code -110. -/
def netOtherCode : Network :=
  netOf 200 (some [sampleSong]) 200
    (some [{ url := some "", code := some (-110) }])

/-- Song whose alias list starts with the empty string. -/
def netEmptyAlias : Network :=
  netOf 200 (some [{ sampleSong with «alias» := some [""] }]) 200
    (some [okEntry])

/-! Claim theorems. -/

/-- C1: the song handler constructs a result exactly when the song-detail
metadata was obtained (status < 400, non-empty songs list) and the first
playback entry's audio URL is non-empty; and whenever an optional metadata
field (alias, album name / cover URL, artists) is missing, the handler
still returns a result with the corresponding optional part omitted
(plain title, no text, no cover item, no author) instead of an error. -/
theorem song_result_invariant (songId : String) (net : Network) :
    ((∃ r, (parseSong songId net).1 = Except.ok r) ↔
      (net.detail.status < 400 ∧
        net.detail.body.songs.getD [] ≠ [] ∧
        net.play.status < 400 ∧
        ∃ e es, net.play.body.data.getD [] = e :: es ∧ e.url.getD "" ≠ "")) ∧
    (∀ song rest r, net.detail.body.songs.getD [] = song :: rest →
      (parseSong songId net).1 = Except.ok r →
      (song.«alias» = none → r.title = song.name.getD "") ∧
      (song.album = none →
        r.text = none ∧ ∀ u, Content.image u ∉ r.contents) ∧
      (song.artists = none → r.author = none)) := by
  refine ⟨parseSong_ok_iff songId net, ?_⟩
  intro song rest r h2 hr
  obtain ⟨h1, -, h3, e, es, h4, h5⟩ := (parseSong_ok_iff songId net).mp ⟨r, hr⟩
  rw [parseSong_success songId net song rest e es h1 h2 h3 h4 h5] at hr
  simp only [Except.ok.injEq] at hr
  subst hr
  refine ⟨?_, ?_, ?_⟩
  · intro ha
    simp [formatTitle, subTitleOf, ha]
  · intro hb
    refine ⟨?_, ?_⟩
    · simp [albumNameOf, hb]
    · intro u
      simp [coverUrlOf, hb, songAudio]
  · intro hc
    simp [authorNameOf, hc, String.intercalate]

/-- C1 witness: a song with every optional field missing still parses,
with plain title, no text and no author. -/
theorem song_result_invariant_witness :
    ∃ r, (parseSong "36990266" netBare).1 = Except.ok r ∧
      r.title = "Song" ∧ r.text = none ∧ r.author = none := by
  obtain ⟨hiff, hdeg⟩ := song_result_invariant "36990266" netBare
  obtain ⟨r, hr⟩ := hiff.mpr
    ⟨by decide, by decide, by decide, okEntry, [], rfl, by decide⟩
  obtain ⟨ht, htx, hau⟩ := hdeg bareSong [] r rfl hr
  exact ⟨r, hr, ht rfl, (htx rfl).1, hau rfl⟩

/-- C2: an empty or missing songs list in a successfully fetched detail
response raises the not-found condition, and the playback request is
never issued (the request trace is just the detail request). -/
theorem songs_empty_not_found (songId : String) (net : Network)
    (h1 : net.detail.status < 400)
    (h2 : net.detail.body.songs.getD [] = []) :
    (parseSong songId net).1 =
      Except.error (NcmError.parseError songNotFoundMsg) ∧
    (parseSong songId net).2 = [Req.detailReq] ∧
    Req.playReq ∉ (parseSong songId net).2 := by
  rw [parseSong_songs_empty songId net h1 h2]
  refine ⟨rfl, rfl, by simp⟩

/-- C2 witness at a concrete empty-songs response. -/
theorem songs_empty_not_found_witness :
    (parseSong "1" netEmptySongs).1 =
      Except.error (NcmError.parseError songNotFoundMsg) ∧
    (parseSong "1" netEmptySongs).2 = [Req.detailReq] ∧
    Req.playReq ∉ (parseSong "1" netEmptySongs).2 :=
  songs_empty_not_found "1" netEmptySongs (by decide) (by decide)

/-- C3: a first playback entry with no audio URL and code 404 raises the
restricted (VIP/rights) condition with its distinct message, and the
raised error is never the generic unavailable message, for any code. -/
theorem restricted_code_404 (songId : String) (net : Network)
    (song : Song) (rest : List Song) (e : PlayEntry) (es : List PlayEntry)
    (h1 : net.detail.status < 400)
    (h2 : net.detail.body.songs.getD [] = song :: rest)
    (h3 : net.play.status < 400)
    (h4 : net.play.body.data.getD [] = e :: es)
    (h5 : e.url.getD "" = "")
    (h6 : e.code.getD (-1) = 404) :
    (parseSong songId net).1 =
      Except.error (NcmError.parseError vipRestrictedMsg) ∧
    ∀ c, (parseSong songId net).1 ≠
      Except.error (NcmError.parseError (noPlayUrlMsg c)) := by
  have h := parseSong_no_url songId net song rest e es h1 h2 h3 h4 h5
  rw [if_pos h6] at h
  rw [h]
  refine ⟨rfl, ?_⟩
  intro c hc
  simp only [Except.error.injEq, NcmError.parseError.injEq] at hc
  exact vipRestrictedMsg_ne_noPlayUrlMsg c hc

/-- C3 witness at a concrete code-404 playback response. -/
theorem restricted_code_404_witness :
    (parseSong "2" netVip).1 =
      Except.error (NcmError.parseError vipRestrictedMsg) ∧
    ∀ c, (parseSong "2" netVip).1 ≠
      Except.error (NcmError.parseError (noPlayUrlMsg c)) :=
  restricted_code_404 "2" netVip sampleSong [] ⟨none, some 404⟩ []
    (by decide) rfl (by decide) rfl (by decide) (by decide)

/-- C4: a first playback entry with no audio URL and a code other than 404
raises the generic unavailable condition, whose message carries exactly
that code. -/
theorem unavailable_other_code (songId : String) (net : Network)
    (song : Song) (rest : List Song) (e : PlayEntry) (es : List PlayEntry)
    (c : Int)
    (h1 : net.detail.status < 400)
    (h2 : net.detail.body.songs.getD [] = song :: rest)
    (h3 : net.play.status < 400)
    (h4 : net.play.body.data.getD [] = e :: es)
    (h5 : e.url.getD "" = "")
    (h6 : e.code.getD (-1) = c)
    (h7 : c ≠ 404) :
    (parseSong songId net).1 =
      Except.error (NcmError.parseError (noPlayUrlMsg c)) ∧
    noPlayUrlMsg c = "[NCM] 无法获取播放地址 (code=" ++ toString c ++ ")" := by
  have h := parseSong_no_url songId net song rest e es h1 h2 h3 h4 h5
  rw [h6, if_neg h7] at h
  rw [h]
  exact ⟨rfl, rfl⟩

/-- C4 witness at a concrete code -110 playback response. -/
theorem unavailable_other_code_witness :
    (parseSong "9" netOtherCode).1 =
      Except.error (NcmError.parseError (noPlayUrlMsg (-110))) ∧
    noPlayUrlMsg (-110) =
      "[NCM] 无法获取播放地址 (code=" ++ toString (-110 : Int) ++ ")" :=
  unavailable_other_code "9" netOtherCode sampleSong []
    ⟨some "", some (-110)⟩ [] (-110)
    (by decide) rfl (by decide) rfl (by decide) (by decide) (by decide)

/-- C5: an HTTP status ≥ 400 on the detail request (resp. on the playback
request, when it is reached) raises the network-error condition carrying
that status; when both statuses are below 400, no network-error condition
is ever raised. -/
theorem http_error_conditions (songId : String) (net : Network) :
    (400 ≤ net.detail.status →
      (parseSong songId net).1 =
        Except.error (NcmError.clientError (detailHttpErrMsg net.detail.status))) ∧
    (∀ song rest, net.detail.status < 400 →
      net.detail.body.songs.getD [] = song :: rest →
      400 ≤ net.play.status →
      (parseSong songId net).1 =
        Except.error (NcmError.clientError (playHttpErrMsg net.play.status))) ∧
    (net.detail.status < 400 → net.play.status < 400 →
      ∀ m, (parseSong songId net).1 ≠
        Except.error (NcmError.clientError m)) := by
  refine ⟨?_, ?_, ?_⟩
  · intro h
    rw [parseSong_detail_http songId net h]
  · intro song rest h1 h2 h3
    rw [parseSong_play_http songId net song rest h1 h2 h3]
  · intro h1 h3 m hm
    cases hs : net.detail.body.songs.getD [] with
    | nil =>
      rw [parseSong_songs_empty songId net h1 hs] at hm
      simp at hm
    | cons song rest =>
      cases hd : net.play.body.data.getD [] with
      | nil =>
        rw [parseSong_play_empty songId net song rest h1 hs h3 hd] at hm
        simp at hm
      | cons e es =>
        by_cases h5 : e.url.getD "" = ""
        · rw [parseSong_no_url songId net song rest e es h1 hs h3 hd h5] at hm
          by_cases hc : e.code.getD (-1) = 404
          · rw [if_pos hc] at hm
            simp at hm
          · rw [if_neg hc] at hm
            simp at hm
        · rw [parseSong_success songId net song rest e es h1 hs h3 hd h5] at hm
          simp at hm

/-- C5 witness: HTTP 500 on detail, HTTP 502 on playback, and an all-OK
exchange, at concrete inputs. -/
theorem http_error_conditions_witness :
    (parseSong "3" netDetailFail).1 =
      Except.error (NcmError.clientError (detailHttpErrMsg 500)) ∧
    (parseSong "3" netPlayFail).1 =
      Except.error (NcmError.clientError (playHttpErrMsg 502)) ∧
    ∀ m, (parseSong "3" netSample).1 ≠
      Except.error (NcmError.clientError m) := by
  refine ⟨?_, ?_, ?_⟩
  · exact (http_error_conditions "3" netDetailFail).1 (by decide)
  · exact (http_error_conditions "3" netPlayFail).2.1 sampleSong []
      (by decide) rfl (by decide)
  · exact (http_error_conditions "3" netSample).2.2 (by decide) (by decide)

/-- C6: on the success path the audio content's duration in seconds is the
floor division of the song's duration in milliseconds by 1000. -/
theorem duration_floor_division (songId : String) (net : Network)
    (song : Song) (rest : List Song) (e : PlayEntry) (es : List PlayEntry)
    (d : Int)
    (h1 : net.detail.status < 400)
    (h2 : net.detail.body.songs.getD [] = song :: rest)
    (h3 : net.play.status < 400)
    (h4 : net.play.body.data.getD [] = e :: es)
    (h5 : e.url.getD "" ≠ "")
    (hdur : song.duration = some d) :
    ∃ r, (parseSong songId net).1 = Except.ok r ∧
      r.contents.getLast? =
        some (Content.audio (e.url.getD "") (some (d.fdiv 1000))) := by
  rw [parseSong_success songId net song rest e es h1 h2 h3 h4 h5]
  refine ⟨_, rfl, ?_⟩
  simp [songAudio, hdur]

/-- C6 witness: 125499 ms becomes exactly 125 seconds. -/
theorem duration_floor_division_witness :
    ∃ r, (parseSong "4" netSample).1 = Except.ok r ∧
      r.contents.getLast? =
        some (Content.audio "http://audio/song.mp3" (some 125)) := by
  obtain ⟨r, hr, hl⟩ := duration_floor_division "4" netSample sampleSong []
    okEntry [] 125499 (by decide) rfl (by decide) rfl (by decide) rfl
  refine ⟨r, hr, ?_⟩
  rw [hl]
  decide

/-- C7: on the success path, a non-empty album picUrl p produces the cover
item with URL exactly p ++ "?param=640y640" followed by the audio item;
an empty or missing picUrl produces no cover item, the content list being
just the audio item. -/
theorem cover_url_transformation (songId : String) (net : Network)
    (song : Song) (rest : List Song) (e : PlayEntry) (es : List PlayEntry)
    (h1 : net.detail.status < 400)
    (h2 : net.detail.body.songs.getD [] = song :: rest)
    (h3 : net.play.status < 400)
    (h4 : net.play.body.data.getD [] = e :: es)
    (h5 : e.url.getD "" ≠ "") :
    (∀ p, song.album.bind Album.picUrl = some p → p ≠ "" →
      ∀ r, (parseSong songId net).1 = Except.ok r →
        r.contents =
          [Content.image (p ++ "?param=640y640"), songAudio song e]) ∧
    ((song.album.bind Album.picUrl).getD "" = "" →
      ∀ r, (parseSong songId net).1 = Except.ok r →
        r.contents = [songAudio song e]) := by
  rw [parseSong_success songId net song rest e es h1 h2 h3 h4 h5]
  constructor
  · intro p hp hpne r hr
    simp only [Except.ok.injEq] at hr
    subst hr
    have hcover : coverUrlOf song = p ++ "?param=640y640" := by
      simp [coverUrlOf, hp, hpne]
    have hne : coverUrlOf song ≠ "" := by
      rw [hcover]
      exact append_ne_empty_of_right p "?param=640y640" (by decide)
    show (if coverUrlOf song ≠ "" then [Content.image (coverUrlOf song)]
      else []) ++ [songAudio song e] = _
    rw [if_pos hne, hcover]
    rfl
  · intro hpic r hr
    simp only [Except.ok.injEq] at hr
    subst hr
    have hcover : coverUrlOf song = "" := by
      simp [coverUrlOf, hpic]
    show (if coverUrlOf song ≠ "" then [Content.image (coverUrlOf song)]
      else []) ++ [songAudio song e] = _
    rw [if_neg (by simp [hcover])]
    rfl

/-- C7 witness: cover transformation and cover omission at concrete inputs. -/
theorem cover_url_transformation_witness :
    (∀ r, (parseSong "5" netSample).1 = Except.ok r →
      r.contents = [Content.image "http://example/cover.jpg?param=640y640",
        songAudio sampleSong okEntry]) ∧
    (∀ r, (parseSong "5" netBare).1 = Except.ok r →
      r.contents = [songAudio bareSong okEntry]) := by
  constructor
  · intro r hr
    exact (cover_url_transformation "5" netSample sampleSong [] okEntry []
        (by decide) rfl (by decide) rfl (by decide)).1
      "http://example/cover.jpg" rfl (by decide) r hr
  · intro r hr
    exact (cover_url_transformation "5" netBare bareSong [] okEntry []
        (by decide) rfl (by decide) rfl (by decide)).2 rfl r hr

/-- C8 counterexample: with title "Song" and first alias "", the produced
title is "Song", not "Song（）" as the claim, read over every first alias,
demands. -/
theorem title_empty_alias_counterexample :
    (parseSong "6" netEmptyAlias).1.map ParsedResult.title = Except.ok "Song" ∧
    "Song" ≠ "Song（）" := by
  exact ⟨rfl, by decide⟩

/-- C8 (amended): a non-empty first alias a yields title t（a）in full-width
parentheses; no alias, an empty alias list, or an empty first alias yields
exactly the plain title t. -/
theorem title_formatting_amended (songId : String) (net : Network)
    (song : Song) (rest : List Song) (e : PlayEntry) (es : List PlayEntry)
    (h1 : net.detail.status < 400)
    (h2 : net.detail.body.songs.getD [] = song :: rest)
    (h3 : net.play.status < 400)
    (h4 : net.play.body.data.getD [] = e :: es)
    (h5 : e.url.getD "" ≠ "") :
    (∀ a as, song.«alias» = some (a :: as) → a ≠ "" →
      ∀ r, (parseSong songId net).1 = Except.ok r →
        r.title = song.name.getD "" ++ "（" ++ a ++ "）") ∧
    (subTitleOf song = "" →
      ∀ r, (parseSong songId net).1 = Except.ok r →
        r.title = song.name.getD "") := by
  rw [parseSong_success songId net song rest e es h1 h2 h3 h4 h5]
  constructor
  · intro a as ha hane r hr
    simp only [Except.ok.injEq] at hr
    subst hr
    have hs : subTitleOf song = a := by simp [subTitleOf, ha]
    show formatTitle (song.name.getD "") (subTitleOf song) = _
    simp [formatTitle, hs, hane, String.append_assoc]
  · intro hsub r hr
    simp only [Except.ok.injEq] at hr
    subst hr
    show formatTitle (song.name.getD "") (subTitleOf song) = _
    simp [formatTitle, hsub]

/-- C8 witness (amended): alias "Alt" gives "Song（Alt）"; no alias gives
"Song". -/
theorem title_formatting_amended_witness :
    (∀ r, (parseSong "7" netSample).1 = Except.ok r →
      r.title = "Song（Alt）") ∧
    (∀ r, (parseSong "7" netBare).1 = Except.ok r → r.title = "Song") := by
  constructor
  · intro r hr
    have h := (title_formatting_amended "7" netSample sampleSong [] okEntry []
        (by decide) rfl (by decide) rfl (by decide)).1 "Alt" [] rfl
      (by decide) r hr
    rw [h]
    decide
  · intro r hr
    exact (title_formatting_amended "7" netBare bareSong [] okEntry []
        (by decide) rfl (by decide) rfl (by decide)).2 rfl r hr

/-- C9: on the success path, the author name is the artist names joined
with " / ", the avatar comes from the first artist only (empty when
absent), and the author object exists exactly when that joined name is
non-empty. -/
theorem author_construction (songId : String) (net : Network)
    (song : Song) (rest : List Song) (e : PlayEntry) (es : List PlayEntry)
    (h1 : net.detail.status < 400)
    (h2 : net.detail.body.songs.getD [] = song :: rest)
    (h3 : net.play.status < 400)
    (h4 : net.play.body.data.getD [] = e :: es)
    (h5 : e.url.getD "" ≠ "") :
    ∀ r, (parseSong songId net).1 = Except.ok r →
      r.author =
        (if String.intercalate " / "
            ((song.artists.getD []).map fun a => a.name.getD "") ≠ "" then
          some { name := String.intercalate " / "
                  ((song.artists.getD []).map fun a => a.name.getD "")
                 avatar :=
                   match song.artists.getD [] with
                   | a :: _ => a.img1v1Url.getD ""
                   | [] => "" }
        else none) := by
  rw [parseSong_success songId net song rest e es h1 h2 h3 h4 h5]
  intro r hr
  simp only [Except.ok.injEq] at hr
  subst hr
  rfl

/-- C9 witness: two artists join to "A / B" with the first avatar. -/
theorem author_construction_witness :
    ∃ r, (parseSong "8" netSample).1 = Except.ok r ∧
      r.author = some { name := "A / B", avatar := "http://a/av.jpg" } := by
  obtain ⟨r, hr⟩ := (parseSong_ok_iff "8" netSample).mpr
    ⟨by decide, by decide, by decide, okEntry, [], rfl, by decide⟩
  have h := author_construction "8" netSample sampleSong [] okEntry []
    (by decide) rfl (by decide) rfl (by decide) r hr
  refine ⟨r, hr, ?_⟩
  rw [h]
  decide

/-- C10: the direct-mp3 and private outer-link handlers issue no request
and wrap the matched URL unchanged as the sole audio content item, with
their fixed titles and text and no author. -/
theorem passthrough_handlers (url : String) :
    parseDirectMp3 url =
      (Except.ok
        { title := "网易云音乐"
          text := some "直链音频"
          author := none
          contents := [Content.audio url none]
          timestamp := none
          url := url }, ([] : List Req)) ∧
    parsePrivateOuter url =
      (Except.ok
        { title := "网易云音乐（私人直链）"
          text := some "直链音频"
          author := none
          contents := [Content.audio url none]
          timestamp := none
          url := url }, ([] : List Req)) :=
  ⟨rfl, rfl⟩

end Ncm
